import Mathlib

/-!
Shallow embedding of the OTP authentication / session core of the
project-management backend (Express + PostgreSQL).

Sources embedded here:
* `src/controllers/authController.js` (handlers `sendOTP`, `verifyOTP`,
  `refreshToken`, `logout`),
* `src/controllers/userController.js` (handler `logoutAllDevices`),
* `src/database/queries.js` (the `authQueries` SQL, modelled as list
  operations on an explicit database state),
* `src/services/otpService.js` (`generateSecureOTP`, `getOTPExpiration`,
  `isMasterOTP`, `isValidOTPFormat`, `sendOTPEmail`),
* the `jsonwebtoken` sign/verify calls, modelled symbolically.

Machine integers do not occur; timestamps are `Nat` milliseconds; the SQL
`CURRENT_TIMESTAMP` and the JS `Date.now()` are both the state's `now`
field, which no handler advances (each theorem is about a single instant,
matching the "immediately" phrasing of the specification).
-/

namespace AuthCore

/-- Environment configuration (`process.env`), restricted to the variables
the embedded code reads.  A `none` means the variable is unset; JS
falsy-fallback (`parseInt(x) || d`, `x || d`) is modelled by the
`effective*` functions below. -/
structure Env where
  otpLength : Option Nat
  otpExpiryMinutes : Option Nat
  masterOTPCode : Option String
  jwtAccessSecret : String
  jwtRefreshSecret : String
  accessTokenTTLms : Option Nat
  refreshTokenTTLms : Option Nat
  nodeEnvDevelopment : Bool
deriving Repr

/-- `parseInt(process.env.OTP_LENGTH) || 6`: unset (`NaN`) and `0` are both
falsy in JS, so both fall back to 6. -/
def effectiveOTPLength (env : Env) : Nat :=
  match env.otpLength with
  | none => 6
  | some 0 => 6
  | some n => n

/-- `parseInt(process.env.OTP_EXPIRY_MINUTES) || 10`. -/
def effectiveOTPExpiryMinutes (env : Env) : Nat :=
  match env.otpExpiryMinutes with
  | none => 10
  | some 0 => 10
  | some n => n

/-- `process.env.JWT_ACCESS_EXPIRES_IN || '15m'`, in milliseconds. -/
def effectiveAccessTTL (env : Env) : Nat :=
  match env.accessTokenTTLms with
  | none => 900000
  | some n => n

/-- `process.env.JWT_REFRESH_EXPIRES_IN || '7d'`, in milliseconds. -/
def effectiveRefreshTTL (env : Env) : Nat :=
  match env.refreshTokenTTLms with
  | none => 604800000
  | some n => n

/-- `process.env.MASTER_OTP_CODE || '999999'` (`""` is falsy in JS). -/
def masterCode (env : Env) : String :=
  match env.masterOTPCode with
  | none => "999999"
  | some s => if s = "" then "999999" else s

/-- `otpService.isMasterOTP`. -/
def isMasterOTP (env : Env) (otp : String) : Bool :=
  otp == masterCode env

/-- `otpService.isValidOTPFormat`: the master code bypasses the length
check; otherwise the code must match `^[0-9]{N}$` with `N` the effective
OTP length. -/
def isValidOTPFormat (env : Env) (otp : String) : Bool :=
  isMasterOTP env otp ||
    (otp.data.length == effectiveOTPLength env && otp.data.all Char.isDigit)

/-- `email.toLowerCase()`, character-wise as JS does on ASCII input. -/
def lowerJS (s : String) : String :=
  String.mk (s.data.map Char.toLower)

/-- The controller's email check `/^[^\s@]+@[^\s@]+\.[^\s@]+$/.test(email)`:
no whitespace anywhere, exactly one `@` with a nonempty part before it, and
the part after it contains a `.` that is neither its first nor its last
character. -/
def isValidEmailJS (s : String) : Bool :=
  match s.data.splitOn '@' with
  | [before, after] =>
      decide (0 < before.length) &&
      s.data.all (fun c => !c.isWhitespace) &&
      (List.range after.length).any (fun p =>
        decide (0 < p) && decide (p + 1 < after.length) && (after.getD p ' ' == '.'))
  | _ => false

/-- `otpService.generateSecureOTP`: one decimal digit per entropy byte
(`crypto.randomBytes`), default length 6. -/
def digitChar (n : Nat) : Char :=
  Char.ofNat (48 + n % 10)

/-- The generated code: `length` digits, byte `i` contributing
`entropy[i] % 10`. -/
def generateSecureOTP (entropy : List Nat) (length : Nat := 6) : String :=
  String.mk ((List.range length).map (fun i => digitChar (entropy.getD i 0)))

/-! ## Data model (tables `users`, `otp_verifications`, `user_sessions`) -/

/-- A row of `users` joined with its role name, as `getUserByEmail` /
`getUserById` return it. -/
structure User where
  id : Nat
  email : String
  isActive : Bool
  roleName : Option String
  emailVerified : Bool
  lastLogin : Option Nat
deriving DecidableEq, Repr

/-- A row of `otp_verifications` (schema defaults: `is_verified false`,
`attempts 0`, `max_attempts 3`). -/
structure OTPChallenge where
  id : Nat
  email : String
  otpCode : String
  otpType : String
  expiresAt : Nat
  isVerified : Bool
  attempts : Nat
  maxAttempts : Nat
  createdAt : Nat
deriving DecidableEq, Repr

/-- JWT claims: access tokens carry a role, refresh tokens do not. -/
structure Claims where
  userId : Nat
  email : String
  role : Option String
deriving DecidableEq, Repr

/-- A signed token, symbolically: its claims, the secret it was signed
with, and its issued-at / expiry instants. -/
structure JWT where
  claims : Claims
  secret : String
  iat : Nat
  exp : Nat
deriving DecidableEq, Repr

inductive JWTError
  | tokenExpired
  | tokenInvalid
deriving DecidableEq, Repr

/-- `jwt.sign(payload, secret, { expiresIn })`. -/
def jwtSign (c : Claims) (secret : String) (iat exp : Nat) : JWT :=
  { claims := c, secret := secret, iat := iat, exp := exp }

/-- `jwt.verify(token, secret)`: wrong secret means a bad signature;
an elapsed expiry raises `TokenExpiredError`. -/
def jwtVerify (t : JWT) (secret : String) (now : Nat) : Except JWTError Claims :=
  if t.secret ≠ secret then .error .tokenInvalid
  else if t.exp ≤ now then .error .tokenExpired
  else .ok t.claims

/-- The `jwt.sign` call for access tokens in `verifyOTP` / `refreshToken`:
claims `{ userId, email, role }`. -/
def issueAccessToken (userId : Nat) (email role secret : String) (iat ttlMs : Nat) : JWT :=
  jwtSign { userId := userId, email := email, role := some role } secret iat (iat + ttlMs)

/-- The `jwt.sign` call for refresh tokens in `verifyOTP`: claims
`{ userId, email }` only. -/
def issueRefreshToken (userId : Nat) (email secret : String) (iat ttlMs : Nat) : JWT :=
  jwtSign { userId := userId, email := email, role := none } secret iat (iat + ttlMs)

/-- A row of `user_sessions`. -/
structure Session where
  id : Nat
  userId : Nat
  refreshToken : JWT
  isActive : Bool
  expiresAt : Nat
  createdAt : Nat
  lastUsed : Nat
deriving DecidableEq, Repr

/-- The persistent state the embedded queries act on, plus the current
instant and the id sequences. -/
structure DB where
  users : List User
  otps : List OTPChallenge
  sessions : List Session
  now : Nat
  nextOtpId : Nat
  nextSessionId : Nat
deriving DecidableEq, Repr

/-! ## `authQueries` (src/database/queries.js) -/

/-- `authQueries.getUserByEmail`: `WHERE email = $1 AND is_active = true`;
the controllers use `rows[0]`. -/
def getUserByEmail (db : DB) (email : String) : Option User :=
  (db.users.filter (fun u => u.email == email && u.isActive)).head?

/-- `authQueries.getUserById`: `WHERE id = $1 AND is_active = true`. -/
def getUserById (db : DB) (id : Nat) : Option User :=
  (db.users.filter (fun u => u.id == id && u.isActive)).head?

/-- `authQueries.updateLastLogin`. -/
def updateLastLogin (db : DB) (id : Nat) : DB :=
  { db with users := db.users.map (fun u =>
      if u.id == id then { u with lastLogin := some db.now } else u) }

/-- `authQueries.createOTP` with the schema defaults for `is_verified`,
`attempts` and `max_attempts`; returns the new row's id. -/
def createOTP (db : DB) (email code otype : String) (expiresAt : Nat) : Nat × DB :=
  (db.nextOtpId,
   { db with
       otps := db.otps ++
         [{ id := db.nextOtpId, email := email, otpCode := code, otpType := otype,
            expiresAt := expiresAt, isVerified := false, attempts := 0,
            maxAttempts := 3, createdAt := db.now }],
       nextOtpId := db.nextOtpId + 1 })

/-- The `WHERE email = $1 AND otp_code = $2 AND otp_type = $3` part shared
by `getValidOTP` and `incrementOTPAttempts`. -/
def otpMatches (email code otype : String) (o : OTPChallenge) : Bool :=
  o.email == email && o.otpCode == code && o.otpType == otype

/-- The validity part of `getValidOTP`: unexpired, unverified, attempts
below the limit. -/
def otpValid (now : Nat) (o : OTPChallenge) : Bool :=
  decide (now < o.expiresAt) && !o.isVerified && decide (o.attempts < o.maxAttempts)

/-- `ORDER BY created_at DESC LIMIT 1` over a result list: the row with
the greatest `created_at` (the earlier row wins a tie, the tiebreak being
unspecified in SQL). -/
def mostRecent : List OTPChallenge → Option OTPChallenge
  | [] => none
  | o :: rest =>
    match mostRecent rest with
    | none => some o
    | some b => if o.createdAt < b.createdAt then some b else some o

/-- `authQueries.getValidOTP`. -/
def getValidOTP (db : DB) (email code otype : String) : Option OTPChallenge :=
  mostRecent (db.otps.filter (fun o => otpMatches email code otype o && otpValid db.now o))

/-- `authQueries.verifyOTP` (the SQL update `SET is_verified = true WHERE
id = $1`; renamed to avoid clashing with the controller of the same name). -/
def markOTPVerified (db : DB) (id : Nat) : DB :=
  { db with otps := db.otps.map (fun o =>
      if o.id == id then { o with isVerified := true } else o) }

/-- `authQueries.cleanExpiredOTPs`: `DELETE ... WHERE expires_at <
CURRENT_TIMESTAMP OR is_verified = true`. -/
def cleanExpiredOTPs (db : DB) : DB :=
  { db with otps := db.otps.filter (fun o =>
      !(decide (o.expiresAt < db.now) || o.isVerified)) }

/-- `authQueries.incrementOTPAttempts`: bumps `attempts` on every
unverified row matching the submitted triple, valid or not. -/
def incrementOTPAttempts (db : DB) (email code otype : String) : DB :=
  { db with otps := db.otps.map (fun o =>
      if otpMatches email code otype o && !o.isVerified
      then { o with attempts := o.attempts + 1 } else o) }

/-- `authQueries.createSession`. -/
def createSession (db : DB) (userId : Nat) (token : JWT) (expiresAt : Nat) : DB :=
  { db with
      sessions := db.sessions ++
        [{ id := db.nextSessionId, userId := userId, refreshToken := token,
           isActive := true, expiresAt := expiresAt, createdAt := db.now,
           lastUsed := db.now }],
      nextSessionId := db.nextSessionId + 1 }

/-- `authQueries.getSessionByToken`: active, unexpired, and the inner
`JOIN users` requires the owning user row to exist. -/
def getSessionByToken (db : DB) (token : JWT) : Option Session :=
  (db.sessions.filter (fun s =>
      s.refreshToken == token && s.isActive && decide (db.now < s.expiresAt) &&
      db.users.any (fun u => u.id == s.userId))).head?

/-- `authQueries.updateSessionLastUsed`. -/
def updateSessionLastUsed (db : DB) (id : Nat) : DB :=
  { db with sessions := db.sessions.map (fun s =>
      if s.id == id then { s with lastUsed := db.now } else s) }

/-- `authQueries.deactivateSession`: `SET is_active = false WHERE
refresh_token = $1`. -/
def deactivateSession (db : DB) (token : JWT) : DB :=
  { db with sessions := db.sessions.map (fun s =>
      if s.refreshToken == token then { s with isActive := false } else s) }

/-! ## Controllers (src/controllers/authController.js, userController.js) -/

/-- The stable error kinds of the responses (each corresponds to one
distinct response message in the source). -/
inductive ErrKind
  | invalidInput
  | userNotFound
  | userInactive
  | invalidOrExpiredOTP
  | tokenInvalid
  | sessionInvalid
  | serverError
deriving DecidableEq, Repr

inductive SendOTPResult
  | ok (email : String) (otpId : Nat)
  | err (status : Nat) (kind : ErrKind)
deriving DecidableEq, Repr

/-- The challenge row a successful `sendOTP` run persists: the generated
code for the lowercased email, purpose `login`, expiring one configured
TTL from now, with the schema defaults. -/
def issuedChallenge (env : Env) (db : DB) (email : String)
    (entropy : List Nat) : OTPChallenge :=
  { id := db.nextOtpId, email := lowerJS email,
    otpCode := generateSecureOTP entropy 6, otpType := "login",
    expiresAt := db.now + effectiveOTPExpiryMinutes env * 60000,
    isVerified := false, attempts := 0, maxAttempts := 3,
    createdAt := db.now }

/-- `otpService.sendOTPEmail`, as seen by the controller: `mailOk` is the
outcome of the SMTP send.  On failure it returns a dev-fallback success
when `NODE_ENV === 'development'` and rethrows otherwise. -/
def sendOTPEmailCall (env : Env) (mailOk : Bool) : Except Unit Bool :=
  if mailOk then .ok false
  else if env.nodeEnvDevelopment then .ok true
  else .error ()

/-- Handler `sendOTP` (POST /api/v1/auth/send-otp).  `entropy` stands for
the bytes `crypto.randomBytes` produced for this request, `mailOk` for the
mail transporter's outcome.  The unreachable 403 branch of the source
(`getUserByEmail` already filters `is_active = true`) is kept verbatim. -/
def sendOTP (env : Env) (db : DB) (email : String) (entropy : List Nat)
    (mailOk : Bool) : SendOTPResult × DB :=
  if !isValidEmailJS email then (.err 400 .invalidInput, db)
  else
    let emailLower := lowerJS email
    match getUserByEmail db emailLower with
    | none => (.err 404 .userNotFound, db)
    | some user =>
      if !user.isActive then (.err 403 .userInactive, db)
      else
        let db1 := cleanExpiredOTPs db
        let otpCode := generateSecureOTP entropy 6
        let expiresAt := db1.now + effectiveOTPExpiryMinutes env * 60000
        let (otpId, db2) := createOTP db1 emailLower otpCode "login" expiresAt
        match sendOTPEmailCall env mailOk with
        | .error _ => (.err 500 .serverError, db2)
        | .ok _ => (.ok emailLower otpId, db2)

inductive VerifyOTPResult
  | ok (accessToken refreshTok : JWT) (userId : Nat)
  | err (status : Nat) (kind : ErrKind)
deriving DecidableEq, Repr

def VerifyOTPResult.isOk : VerifyOTPResult → Bool
  | .ok .. => true
  | .err .. => false

/-- Handler `verifyOTP` (POST /api/v1/auth/verify-otp).  The body's
`type` field defaults to `'login'` and is then never used: both
`getValidOTP` and `incrementOTPAttempts` are called with the literal
`'login'`, so the handler takes no purpose argument here. -/
def verifyOTP (env : Env) (db : DB) (email otp : String) : VerifyOTPResult × DB :=
  if email == "" || otp == "" then (.err 400 .invalidInput, db)
  else if !isValidOTPFormat env otp then (.err 400 .invalidInput, db)
  else
    match getUserByEmail db (lowerJS email) with
    | none => (.err 404 .userNotFound, db)
    | some user =>
      match getValidOTP db (lowerJS email) otp "login" with
      | none =>
          (.err 400 .invalidOrExpiredOTP,
           incrementOTPAttempts db (lowerJS email) otp "login")
      | some otpRecord =>
          let db1 := markOTPVerified db otpRecord.id
          let db2 := updateLastLogin db1 user.id
          let accessToken := issueAccessToken user.id user.email
            (user.roleName.getD "user") env.jwtAccessSecret db.now (effectiveAccessTTL env)
          let refreshTok := issueRefreshToken user.id user.email
            env.jwtRefreshSecret db.now (effectiveRefreshTTL env)
          let db3 := createSession db2 user.id refreshTok (db.now + 604800000)
          (.ok accessToken refreshTok user.id, db3)

inductive RefreshResult
  | ok (accessToken : JWT)
  | err (status : Nat) (kind : ErrKind)
deriving DecidableEq, Repr

/-- Handler `refreshToken` (POST /api/v1/auth/refresh-token).  A missing
body field is `none`.  Signature/expiry failure and session-lookup failure
are distinct 401 responses (`'Invalid refresh token'` vs `'Invalid or
expired session'`). -/
def refreshTokenHandler (env : Env) (db : DB) (token? : Option JWT) : RefreshResult × DB :=
  match token? with
  | none => (.err 400 .invalidInput, db)
  | some token =>
    match jwtVerify token env.jwtRefreshSecret db.now with
    | .error _ => (.err 401 .tokenInvalid, db)
    | .ok decoded =>
      match getSessionByToken db token with
      | none => (.err 401 .sessionInvalid, db)
      | some session =>
        let db1 := updateSessionLastUsed db session.id
        match getUserById db1 decoded.userId with
        | none => (.err 404 .userNotFound, db1)
        | some user =>
            (.ok (issueAccessToken user.id user.email (user.roleName.getD "user")
              env.jwtAccessSecret db1.now (effectiveAccessTTL env)), db1)

inductive LogoutResult
  | ok
  | err (status : Nat) (kind : ErrKind)
deriving DecidableEq, Repr

/-- Handler `logout` (POST /api/v1/auth/logout). -/
def logout (db : DB) (token? : Option JWT) : LogoutResult × DB :=
  match token? with
  | none => (.err 400 .invalidInput, db)
  | some token => (.ok, deactivateSession db token)

/-- The keys the `authQueries` object of src/database/queries.js actually
defines.  `deactivateAllUserSessions` is not among them. -/
def authQueriesKeys : List String :=
  ["createUser", "getUserByEmail", "getUserById", "updateLastLogin",
   "createOTP", "getValidOTP", "verifyOTP", "cleanExpiredOTPs",
   "incrementOTPAttempts", "createSession", "getSessionByToken",
   "updateSessionLastUsed", "deactivateSession"]

/-- Modelled from the spec: `deactivateAll(userId)` marks every session of
the user inactive.  No such SQL exists in src/database/queries.js — this is
what the update would do if the key `deactivateAllUserSessions` were
defined; `logoutAllDevices` below only reaches it in that (false) case. -/
def deactivateAllUserSessions (db : DB) (userId : Nat) : DB :=
  { db with sessions := db.sessions.map (fun s =>
      if s.userId == userId then { s with isActive := false } else s) }

/-- Handler `logoutAllDevices` (POST /api/v1/user/logout-all) of
userController.js: it runs `query(authQueries.deactivateAllUserSessions,
[userId])`, but the `authQueries` object defines no such key, so the
property access yields `undefined`, the pg driver rejects the query, and
the handler's `catch` answers 500 with no state change. -/
def logoutAllDevices (db : DB) (userId : Nat) : LogoutResult × DB :=
  if authQueriesKeys.contains "deactivateAllUserSessions"
  then (.ok, deactivateAllUserSessions db userId)
  else (.err 500 .serverError, db)

/-! ## Concrete states used to instantiate the theorems -/

/-- A deployment with every recognized variable unset (all defaults) and
`NODE_ENV` not `development`. -/
def envDefault : Env :=
  { otpLength := none, otpExpiryMinutes := none, masterOTPCode := none,
    jwtAccessSecret := "access-secret", jwtRefreshSecret := "refresh-secret",
    accessTokenTTLms := none, refreshTokenTTLms := none,
    nodeEnvDevelopment := false }

/-- The default deployment with `OTP_LENGTH=4`. -/
def envShortLen : Env :=
  { envDefault with otpLength := some 4 }

def aliceUser : User :=
  { id := 1, email := "a@x.com", isActive := true, roleName := none,
    emailVerified := true, lastLogin := none }

def dbAlice : DB :=
  { users := [aliceUser], otps := [], sessions := [], now := 1000,
    nextOtpId := 1, nextSessionId := 1 }

def dbNoUsers : DB :=
  { users := [], otps := [], sessions := [], now := 1000,
    nextOtpId := 1, nextSessionId := 1 }

def bobInactive : User :=
  { id := 2, email := "b@x.com", isActive := false, roleName := none,
    emailVerified := true, lastLogin := none }

def dbBobInactive : DB :=
  { users := [bobInactive], otps := [], sessions := [], now := 1000,
    nextOtpId := 1, nextSessionId := 1 }

/-- An expired challenge with code `000000` for Alice (issued at 100,
expired at 500, the clock is at 1000). -/
def expiredZeroChallenge : OTPChallenge :=
  { id := 7, email := "a@x.com", otpCode := "000000", otpType := "login",
    expiresAt := 500, isVerified := false, attempts := 0, maxAttempts := 3,
    createdAt := 100 }

def dbNearMiss : DB :=
  { users := [aliceUser], otps := [expiredZeroChallenge], sessions := [],
    now := 1000, nextOtpId := 8, nextSessionId := 1 }

/-- A live challenge whose code happens to equal the default master code. -/
def masterChallenge : OTPChallenge :=
  { id := 3, email := "a@x.com", otpCode := "999999", otpType := "login",
    expiresAt := 601000, isVerified := false, attempts := 0, maxAttempts := 3,
    createdAt := 1000 }

def dbMasterChallenge : DB :=
  { users := [aliceUser], otps := [masterChallenge], sessions := [],
    now := 1000, nextOtpId := 4, nextSessionId := 1 }

def aliceRefreshTok : JWT :=
  issueRefreshToken 1 "a@x.com" "refresh-secret" 1000 604800000

def aliceSession : Session :=
  { id := 1, userId := 1, refreshToken := aliceRefreshTok, isActive := true,
    expiresAt := 605801000, createdAt := 1000, lastUsed := 1000 }

def dbWithSession : DB :=
  { users := [aliceUser], otps := [], sessions := [aliceSession], now := 2000,
    nextOtpId := 1, nextSessionId := 2 }

/-! ## Helper lemmas -/

theorem getUserByEmail_isActive {db : DB} {e : String} {u : User}
    (h : getUserByEmail db e = some u) : u.isActive = true := by
  unfold getUserByEmail at h
  have hm := List.mem_of_mem_head? h
  have hp := (List.mem_filter.mp hm).2
  simp only [Bool.and_eq_true, beq_iff_eq] at hp
  exact hp.2

theorem masterCode_ne_empty (env : Env) : masterCode env ≠ "" := by
  unfold masterCode
  cases env.masterOTPCode with
  | none => decide
  | some s =>
    by_cases h : s = ""
    · simp only [h, if_pos rfl]; decide
    · simp only [if_neg h]; exact h

theorem isValidEmailJS_ne_empty {s : String} (h : isValidEmailJS s = true) :
    s ≠ "" := by
  intro he
  subst he
  exact absurd h (by decide)

theorem effectiveOTPExpiryMinutes_pos (env : Env) :
    0 < effectiveOTPExpiryMinutes env := by
  unfold effectiveOTPExpiryMinutes
  rcases env.otpExpiryMinutes with _ | (_ | n) <;> simp

theorem digitChar_isDigit (n : Nat) : (digitChar n).isDigit = true := by
  unfold digitChar
  have h : n % 10 < 10 := Nat.mod_lt _ (by norm_num)
  set m := n % 10 with hm
  interval_cases m <;> decide

theorem generateSecureOTP_data (entropy : List Nat) (n : Nat) :
    (generateSecureOTP entropy n).data =
      (List.range n).map (fun i => digitChar (entropy.getD i 0)) := rfl

theorem generateSecureOTP_length (entropy : List Nat) (n : Nat) :
    (generateSecureOTP entropy n).data.length = n := by
  rw [generateSecureOTP_data]
  simp

theorem generateSecureOTP_ne_empty (entropy : List Nat) :
    generateSecureOTP entropy 6 ≠ "" := by
  intro h
  have h6 := generateSecureOTP_length entropy 6
  rw [h] at h6
  simp at h6

theorem generateSecureOTP_format (env : Env) (entropy : List Nat)
    (hlen : effectiveOTPLength env = 6) :
    isValidOTPFormat env (generateSecureOTP entropy 6) = true := by
  unfold isValidOTPFormat
  have h1 : ((generateSecureOTP entropy 6).data.length == effectiveOTPLength env) = true := by
    rw [generateSecureOTP_length, hlen]
    decide
  have h2 : (generateSecureOTP entropy 6).data.all Char.isDigit = true := by
    rw [generateSecureOTP_data, List.all_eq_true]
    intro c hc
    rcases List.mem_map.mp hc with ⟨i, _, rfl⟩
    exact digitChar_isDigit _
  rw [h1, h2]
  simp

theorem mostRecent_eq_none {l : List OTPChallenge} :
    mostRecent l = none ↔ l = [] := by
  cases l with
  | nil => simp [mostRecent]
  | cons o rest =>
    simp only [mostRecent]
    cases mostRecent rest with
    | none => simp
    | some b =>
      by_cases h : o.createdAt < b.createdAt <;> simp [h]

theorem mostRecent_mem {l : List OTPChallenge} {o : OTPChallenge}
    (h : mostRecent l = some o) : o ∈ l := by
  induction l with
  | nil => simp [mostRecent] at h
  | cons x rest ih =>
    rw [mostRecent] at h
    split at h
    · simp only [Option.some.injEq] at h
      simp [h]
    · rename_i b hr
      split at h <;> simp only [Option.some.injEq] at h
      · subst h
        exact List.mem_cons_of_mem _ (ih hr)
      · simp [h]

theorem getValidOTP_isSome_iff (db : DB) (e c t : String) :
    (getValidOTP db e c t).isSome = true ↔
      ∃ o ∈ db.otps, o.email = e ∧ o.otpCode = c ∧ o.otpType = t ∧
        o.isVerified = false ∧ db.now < o.expiresAt ∧
        o.attempts < o.maxAttempts := by
  unfold getValidOTP
  constructor
  · intro h
    cases hm : mostRecent (db.otps.filter
        (fun o => otpMatches e c t o && otpValid db.now o)) with
    | none => rw [hm] at h; simp at h
    | some b =>
      have hb := List.mem_filter.mp (mostRecent_mem hm)
      refine ⟨b, hb.1, ?_⟩
      have hp := hb.2
      simp only [otpMatches, otpValid, Bool.and_eq_true, beq_iff_eq,
        Bool.not_eq_true', decide_eq_true_eq] at hp
      exact ⟨hp.1.1.1, hp.1.1.2, hp.1.2, hp.2.1.2, hp.2.1.1, hp.2.2⟩
  · rintro ⟨o, ho, h1, h2, h3, h4, h5, h6⟩
    cases hm : mostRecent (db.otps.filter
        (fun o => otpMatches e c t o && otpValid db.now o)) with
    | some b => simp
    | none =>
      rw [mostRecent_eq_none] at hm
      have hmem : o ∈ db.otps.filter
          (fun o => otpMatches e c t o && otpValid db.now o) := by
        refine List.mem_filter.mpr ⟨ho, ?_⟩
        simp [otpMatches, otpValid, h1, h2, h3, h4, h5, h6]
      rw [hm] at hmem
      simp at hmem

theorem getUserByEmail_map (db db' : DB) (f : User → User)
    (husers : db'.users = db.users.map f)
    (hf : ∀ v, (f v).email = v.email ∧ (f v).isActive = v.isActive)
    (e : String) :
    getUserByEmail db' e = (getUserByEmail db e).map f := by
  unfold getUserByEmail
  rw [husers, List.filter_map, List.head?_map]
  congr 2
  apply List.filter_congr
  intro v _
  simp [Function.comp, (hf v).1, (hf v).2]

/-! ## Claim theorems -/

/-- C10: when `MASTER_OTP_CODE` is unset, the literal `"999999"` is the
master code: `isMasterOTP "999999"` is true and `isValidOTPFormat
"999999"` is true for every configured `OTP_LENGTH`, so the format check
never rejects `"999999"` in an unconfigured deployment. -/
theorem default_master_code_999999_accepted (env : Env)
    (hm : env.masterOTPCode = none) :
    isMasterOTP env "999999" = true ∧ isValidOTPFormat env "999999" = true := by
  have hc : masterCode env = "999999" := by simp [masterCode, hm]
  have h1 : isMasterOTP env "999999" = true := by
    simp [isMasterOTP, hc]
  exact ⟨h1, by simp [isValidOTPFormat, h1]⟩

theorem default_master_code_999999_accepted_witness :
    isMasterOTP envShortLen "999999" = true ∧
    isValidOTPFormat envShortLen "999999" = true :=
  default_master_code_999999_accepted envShortLen rfl

/-- C8: an access token minted by `issueAccessToken` and immediately
verified with the same secret yields exactly the input claims
(userId, email, role) — neither `tokenExpired` nor `tokenInvalid`. -/
theorem access_token_roundtrip (userId : Nat) (email role secret : String)
    (now ttl : Nat) (h : 0 < ttl) :
    jwtVerify (issueAccessToken userId email role secret now ttl) secret now =
      .ok { userId := userId, email := email, role := some role } := by
  simp only [jwtVerify, issueAccessToken, jwtSign, ne_eq, not_true_eq_false,
    if_false]
  rw [if_neg (by omega)]

theorem access_token_roundtrip_witness :
    jwtVerify (issueAccessToken 1 "a@x.com" "user" "access-secret" 1000 900000)
        "access-secret" 1000 =
      .ok { userId := 1, email := "a@x.com", role := some "user" } :=
  access_token_roundtrip 1 "a@x.com" "user" "access-secret" 1000 900000 (by decide)

/-- C4 (code bug): `logoutAllDevices` never deactivates anything — the
`authQueries` object has no `deactivateAllUserSessions` key, so the query
text is `undefined`, the driver throws, and the handler answers 500 with
the state untouched; every prior session still passes the active-session
lookup. -/
theorem logout_all_devices_always_fails_500 (db : DB) (userId : Nat) :
    logoutAllDevices db userId = (.err 500 .serverError, db) := by
  have h : authQueriesKeys.contains "deactivateAllUserSessions" = false := by decide
  unfold logoutAllDevices
  rw [h]
  simp

/-- C2 counterexample: redeeming the (default) master code `"999999"` for
an email with no account fails with `userNotFound`, not with
`invalidOrExpiredOTP` as the claim states for every email without a
matching valid challenge. -/
theorem master_otp_unknown_email_fails_userNotFound :
    masterCode envDefault = "999999" ∧
    (¬ ∃ o ∈ dbNoUsers.otps, o.otpCode = "999999") ∧
    (verifyOTP envDefault dbNoUsers "ghost@x.com" "999999").fst =
      .err 404 .userNotFound ∧
    (verifyOTP envDefault dbNoUsers "ghost@x.com" "999999").fst ≠
      .err 400 .invalidOrExpiredOTP :=
  ⟨by decide, by simp [dbNoUsers], by decide, by decide⟩

/-- C6 counterexample: outside development mode a mail-send failure makes
the issuance answer 500 even though the challenge was persisted, refuting
"a mail-send failure never turns an otherwise-successful issuance into an
error response". -/
theorem send_otp_mail_failure_production_returns_500 :
    (sendOTP envDefault dbAlice "a@x.com" [1, 2, 3, 4, 5, 6] false).fst =
      .err 500 .serverError ∧
    ∃ o ∈ (sendOTP envDefault dbAlice "a@x.com" [1, 2, 3, 4, 5, 6] false).snd.otps,
      o.email = "a@x.com" ∧ o.otpCode = generateSecureOTP [1, 2, 3, 4, 5, 6] 6 ∧
      o.isVerified = false := by
  decide

/-- C9: whenever redemption fails with `invalidOrExpiredOTP`, the only
state change is the attempt increment: no session is created, the users
table (hence last-login) is untouched, and no challenge's verified flag
changes; the error response carries no tokens. -/
theorem verifyOTP_failure_shape (env : Env) (db : DB) (email otp : String) :
    (verifyOTP env db email otp).fst = .err 400 .invalidOrExpiredOTP →
    verifyOTP env db email otp =
      (.err 400 .invalidOrExpiredOTP,
       incrementOTPAttempts db (lowerJS email) otp "login") := by
  unfold verifyOTP
  split
  · intro h; simp at h
  · split
    · intro h; simp at h
    · split
      · intro h; simp at h
      · split
        · intro _; rfl
        · intro h; simp at h

theorem failed_redemption_changes_only_attempts (env : Env) (db : DB)
    (email otp : String)
    (h : (verifyOTP env db email otp).fst = .err 400 .invalidOrExpiredOTP) :
    (verifyOTP env db email otp).snd =
      incrementOTPAttempts db (lowerJS email) otp "login" ∧
    (verifyOTP env db email otp).snd.sessions = db.sessions ∧
    (verifyOTP env db email otp).snd.users = db.users ∧
    (verifyOTP env db email otp).snd.otps.map (fun o => o.isVerified) =
      db.otps.map (fun o => o.isVerified) := by
  have heq := verifyOTP_failure_shape env db email otp h
  rw [heq]
  refine ⟨rfl, rfl, rfl, ?_⟩
  simp only [incrementOTPAttempts, List.map_map]
  apply List.map_congr_left
  intro o _
  simp only [Function.comp]
  split <;> rfl

theorem failed_redemption_changes_only_attempts_witness :
    (verifyOTP envDefault dbAlice "a@x.com" "000000").snd =
      incrementOTPAttempts dbAlice (lowerJS "a@x.com") "000000" "login" ∧
    (verifyOTP envDefault dbAlice "a@x.com" "000000").snd.sessions =
      dbAlice.sessions ∧
    (verifyOTP envDefault dbAlice "a@x.com" "000000").snd.users =
      dbAlice.users ∧
    (verifyOTP envDefault dbAlice "a@x.com" "000000").snd.otps.map
        (fun o => o.isVerified) =
      dbAlice.otps.map (fun o => o.isVerified) :=
  failed_redemption_changes_only_attempts envDefault dbAlice "a@x.com" "000000"
    (by decide)

/-- C3: after `logout` deactivates its session, the refresh protocol fails
with `sessionInvalid` even though the token's signature is valid and its
expiry has not passed — the active-session lookup by token value is
independent of and in addition to signature verification. -/
theorem refresh_after_logout_fails_sessionInvalid (env : Env) (db : DB) (t : JWT)
    (hsig : t.secret = env.jwtRefreshSecret) (hexp : db.now < t.exp) :
    (refreshTokenHandler env (logout db (some t)).snd (some t)).fst =
      .err 401 .sessionInvalid := by
  have hdb : (logout db (some t)).snd = deactivateSession db t := rfl
  rw [hdb]
  have hnow : (deactivateSession db t).now = db.now := rfl
  have hv : jwtVerify t env.jwtRefreshSecret (deactivateSession db t).now =
      .ok t.claims := by
    unfold jwtVerify
    rw [hnow, if_neg (by simp [hsig]), if_neg (by omega)]
  have hs : getSessionByToken (deactivateSession db t) t = none := by
    unfold getSessionByToken
    rw [List.head?_eq_none_iff]
    apply List.filter_eq_nil_iff.mpr
    intro s hsmem
    simp only [deactivateSession, List.mem_map] at hsmem
    rcases hsmem with ⟨s0, _, rfl⟩
    by_cases hmatch : s0.refreshToken == t
    · simp [hmatch]
    · simp [hmatch]
  unfold refreshTokenHandler
  simp only [hv, hs]

theorem refresh_after_logout_fails_sessionInvalid_witness :
    getSessionByToken dbWithSession aliceRefreshTok = some aliceSession ∧
    (refreshTokenHandler envDefault
        (logout dbWithSession (some aliceRefreshTok)).snd
        (some aliceRefreshTok)).fst = .err 401 .sessionInvalid :=
  ⟨by decide, refresh_after_logout_fails_sessionInvalid envDefault dbWithSession
    aliceRefreshTok (by decide) (by decide)⟩

/-- C5 (code bug): requesting an OTP for the email of an existing but
deactivated account answers `userNotFound` (404), not `userInactive`
(403): `getUserByEmail` filters `is_active = true`, so the handler's
deactivated-account branch is unreachable. -/
theorem send_otp_deactivated_user_gets_userNotFound (env : Env) (db : DB)
    (email : String) (entropy : List Nat) (mailOk : Bool) (u : User)
    (hvalid : isValidEmailJS email = true)
    (_hmem : u ∈ db.users) (_hemail : u.email = lowerJS email)
    (_hinact : u.isActive = false)
    (hnone : ∀ v ∈ db.users, v.email = lowerJS email → v.isActive = false) :
    (sendOTP env db email entropy mailOk).fst = .err 404 .userNotFound ∧
    (sendOTP env db email entropy mailOk).fst ≠ .err 403 .userInactive := by
  have hlookup : getUserByEmail db (lowerJS email) = none := by
    unfold getUserByEmail
    rw [List.head?_eq_none_iff]
    apply List.filter_eq_nil_iff.mpr
    intro v hvmem
    by_cases he : v.email = lowerJS email
    · simp [he, hnone v hvmem he]
    · simp [he]
  have h1 : (sendOTP env db email entropy mailOk).fst = .err 404 .userNotFound := by
    unfold sendOTP
    simp [hvalid, hlookup]
  exact ⟨h1, by rw [h1]; simp⟩

theorem send_otp_deactivated_user_gets_userNotFound_witness :
    (sendOTP envDefault dbBobInactive "b@x.com" [1, 2, 3, 4, 5, 6] true).fst =
      .err 404 .userNotFound ∧
    (sendOTP envDefault dbBobInactive "b@x.com" [1, 2, 3, 4, 5, 6] true).fst ≠
      .err 403 .userInactive :=
  send_otp_deactivated_user_gets_userNotFound envDefault dbBobInactive "b@x.com"
    [1, 2, 3, 4, 5, 6] true bobInactive (by decide) (by decide) (by decide)
    (by decide) (by decide)

theorem verifyOTP_wrong_code_run (env : Env) (db : DB) (email otp : String)
    (u : User) (hne : email ≠ "") (hone : otp ≠ "")
    (hfmt : isValidOTPFormat env otp = true)
    (hu : getUserByEmail db (lowerJS email) = some u)
    (hnovalid : getValidOTP db (lowerJS email) otp "login" = none) :
    verifyOTP env db email otp =
      (.err 400 .invalidOrExpiredOTP,
       incrementOTPAttempts db (lowerJS email) otp "login") := by
  unfold verifyOTP
  simp [hne, hone, hfmt, hu, hnovalid]

/-- C7: a syntactically valid but wrong code (no valid challenge matches)
makes redemption increment the attempts counter on every unverified
challenge matching the submitted (email, code, purpose) triple and fail
with `invalidOrExpiredOTP`. -/
theorem wrong_code_increments_attempts_and_fails (env : Env) (db : DB)
    (email otp : String) (u : User)
    (hne : email ≠ "") (hone : otp ≠ "")
    (hfmt : isValidOTPFormat env otp = true)
    (hu : getUserByEmail db (lowerJS email) = some u)
    (hnovalid : getValidOTP db (lowerJS email) otp "login" = none) :
    (verifyOTP env db email otp).fst = .err 400 .invalidOrExpiredOTP ∧
    (verifyOTP env db email otp).snd =
      incrementOTPAttempts db (lowerJS email) otp "login" ∧
    ∀ o ∈ db.otps, otpMatches (lowerJS email) otp "login" o = true →
      o.isVerified = false →
      { o with attempts := o.attempts + 1 } ∈
        (verifyOTP env db email otp).snd.otps := by
  have hrun := verifyOTP_wrong_code_run env db email otp u hne hone hfmt hu hnovalid
  refine ⟨by rw [hrun], by rw [hrun], ?_⟩
  intro o ho hm hv
  rw [hrun]
  simp only [incrementOTPAttempts]
  apply List.mem_map.mpr
  exact ⟨o, ho, by simp [hm, hv]⟩

theorem wrong_code_increments_attempts_and_fails_witness :
    (verifyOTP envDefault dbNearMiss "a@x.com" "000000").fst =
      .err 400 .invalidOrExpiredOTP ∧
    (verifyOTP envDefault dbNearMiss "a@x.com" "000000").snd =
      incrementOTPAttempts dbNearMiss (lowerJS "a@x.com") "000000" "login" ∧
    ∀ o ∈ dbNearMiss.otps,
      otpMatches (lowerJS "a@x.com") "000000" "login" o = true →
      o.isVerified = false →
      { o with attempts := o.attempts + 1 } ∈
        (verifyOTP envDefault dbNearMiss "a@x.com" "000000").snd.otps :=
  wrong_code_increments_attempts_and_fails envDefault dbNearMiss "a@x.com"
    "000000" aliceUser (by decide) (by decide) (by decide) (by decide) (by decide)

theorem sendOTP_persist_shape (env : Env) (db : DB) (email : String)
    (entropy : List Nat) (mailOk : Bool) (u : User)
    (hvalid : isValidEmailJS email = true)
    (hu : getUserByEmail db (lowerJS email) = some u) :
    (sendOTP env db email entropy mailOk).snd =
      { db with
          otps := (cleanExpiredOTPs db).otps ++ [issuedChallenge env db email entropy],
          nextOtpId := db.nextOtpId + 1 } ∧
    (sendOTP env db email entropy mailOk).fst =
      (if mailOk || env.nodeEnvDevelopment
       then .ok (lowerJS email) db.nextOtpId
       else .err 500 .serverError) := by
  have hActive := getUserByEmail_isActive hu
  unfold sendOTP
  cases mailOk <;> cases hdev : env.nodeEnvDevelopment <;>
    simp [hvalid, hu, hActive, hdev, sendOTPEmailCall, createOTP,
      cleanExpiredOTPs, issuedChallenge]

/-- C6 (amended): a mail-send failure never rolls back persistence — the
issued challenge stays stored; with `NODE_ENV=development` issuance still
reports success, but otherwise the handler answers 500 despite the
persisted challenge. -/
theorem send_otp_mail_failure_persists_challenge (env : Env) (db : DB)
    (email : String) (entropy : List Nat) (u : User)
    (hvalid : isValidEmailJS email = true)
    (hu : getUserByEmail db (lowerJS email) = some u) :
    (∃ o ∈ (sendOTP env db email entropy false).snd.otps,
        o.email = lowerJS email ∧ o.otpCode = generateSecureOTP entropy 6 ∧
        o.isVerified = false) ∧
    (env.nodeEnvDevelopment = true →
      (sendOTP env db email entropy false).fst =
        .ok (lowerJS email) db.nextOtpId) ∧
    (env.nodeEnvDevelopment = false →
      (sendOTP env db email entropy false).fst = .err 500 .serverError) := by
  obtain ⟨hsnd, hfst⟩ := sendOTP_persist_shape env db email entropy false u hvalid hu
  refine ⟨?_, ?_, ?_⟩
  · rw [hsnd]
    refine ⟨issuedChallenge env db email entropy, by simp, rfl, rfl, rfl⟩
  · intro hdev
    rw [hfst, hdev]
    simp
  · intro hdev
    rw [hfst, hdev]
    simp

theorem send_otp_mail_failure_persists_challenge_witness :
    (∃ o ∈ (sendOTP envDefault dbAlice "a@x.com" [1, 2, 3, 4, 5, 6] false).snd.otps,
        o.email = lowerJS "a@x.com" ∧
        o.otpCode = generateSecureOTP [1, 2, 3, 4, 5, 6] 6 ∧
        o.isVerified = false) ∧
    (envDefault.nodeEnvDevelopment = true →
      (sendOTP envDefault dbAlice "a@x.com" [1, 2, 3, 4, 5, 6] false).fst =
        .ok (lowerJS "a@x.com") dbAlice.nextOtpId) ∧
    (envDefault.nodeEnvDevelopment = false →
      (sendOTP envDefault dbAlice "a@x.com" [1, 2, 3, 4, 5, 6] false).fst =
        .err 500 .serverError) :=
  send_otp_mail_failure_persists_challenge envDefault dbAlice "a@x.com"
    [1, 2, 3, 4, 5, 6] aliceUser (by decide) (by decide)

/-- C2 (amended): the master code bypasses only the format/length check;
for a nonempty email of an existing active user, redeeming with the
configured master code succeeds iff a stored unverified, unexpired,
attempts-below-max login challenge whose code equals the master value
exists, and otherwise fails with `invalidOrExpiredOTP`.  (For an email
without an active account it fails with `userNotFound` instead — see the
counterexample.) -/
theorem master_otp_requires_matching_valid_challenge (env : Env) (db : DB)
    (email : String) (u : User) (hne : email ≠ "")
    (hu : getUserByEmail db (lowerJS email) = some u) :
    isValidOTPFormat env (masterCode env) = true ∧
    ((verifyOTP env db email (masterCode env)).fst.isOk = true ↔
      ∃ o ∈ db.otps, o.email = lowerJS email ∧ o.otpCode = masterCode env ∧
        o.otpType = "login" ∧ o.isVerified = false ∧ db.now < o.expiresAt ∧
        o.attempts < o.maxAttempts) ∧
    ((¬ ∃ o ∈ db.otps, o.email = lowerJS email ∧ o.otpCode = masterCode env ∧
        o.otpType = "login" ∧ o.isVerified = false ∧ db.now < o.expiresAt ∧
        o.attempts < o.maxAttempts) →
      (verifyOTP env db email (masterCode env)).fst =
        .err 400 .invalidOrExpiredOTP) := by
  have hmne := masterCode_ne_empty env
  have hfmt : isValidOTPFormat env (masterCode env) = true := by
    simp [isValidOTPFormat, isMasterOTP]
  have hiff := getValidOTP_isSome_iff db (lowerJS email) (masterCode env) "login"
  cases hg : getValidOTP db (lowerJS email) (masterCode env) "login" with
  | none =>
    have hfail : (verifyOTP env db email (masterCode env)).fst =
        .err 400 .invalidOrExpiredOTP := by
      unfold verifyOTP
      simp [hne, hmne, hfmt, hu, hg]
    refine ⟨hfmt, ?_, fun _ => hfail⟩
    rw [hfail]
    constructor
    · intro hok
      simp [VerifyOTPResult.isOk] at hok
    · intro hex
      have hsome := hiff.mpr hex
      rw [hg] at hsome
      simp at hsome
  | some r =>
    have hok : (verifyOTP env db email (masterCode env)).fst.isOk = true := by
      unfold verifyOTP
      simp [hne, hmne, hfmt, hu, hg, VerifyOTPResult.isOk]
    have hex : ∃ o ∈ db.otps, o.email = lowerJS email ∧
        o.otpCode = masterCode env ∧ o.otpType = "login" ∧
        o.isVerified = false ∧ db.now < o.expiresAt ∧
        o.attempts < o.maxAttempts := by
      apply hiff.mp
      rw [hg]
      rfl
    exact ⟨hfmt, iff_of_true hok hex, fun hnex => absurd hex hnex⟩

theorem master_otp_requires_matching_valid_challenge_witness :
    isValidOTPFormat envDefault (masterCode envDefault) = true ∧
    ((verifyOTP envDefault dbMasterChallenge "a@x.com"
        (masterCode envDefault)).fst.isOk = true ↔
      ∃ o ∈ dbMasterChallenge.otps, o.email = lowerJS "a@x.com" ∧
        o.otpCode = masterCode envDefault ∧ o.otpType = "login" ∧
        o.isVerified = false ∧ dbMasterChallenge.now < o.expiresAt ∧
        o.attempts < o.maxAttempts) ∧
    ((¬ ∃ o ∈ dbMasterChallenge.otps, o.email = lowerJS "a@x.com" ∧
        o.otpCode = masterCode envDefault ∧ o.otpType = "login" ∧
        o.isVerified = false ∧ dbMasterChallenge.now < o.expiresAt ∧
        o.attempts < o.maxAttempts) →
      (verifyOTP envDefault dbMasterChallenge "a@x.com"
        (masterCode envDefault)).fst = .err 400 .invalidOrExpiredOTP) :=
  master_otp_requires_matching_valid_challenge envDefault dbMasterChallenge
    "a@x.com" aliceUser (by decide) (by decide)

theorem verifyOTP_success_shape (env : Env) (db : DB) (email otp : String)
    (u : User) (r : OTPChallenge)
    (hne : email ≠ "") (hone : otp ≠ "")
    (hfmt : isValidOTPFormat env otp = true)
    (hu : getUserByEmail db (lowerJS email) = some u)
    (hfound : getValidOTP db (lowerJS email) otp "login" = some r) :
    (verifyOTP env db email otp).fst.isOk = true ∧
    (verifyOTP env db email otp).snd.otps =
      db.otps.map (fun o =>
        if o.id == r.id then { o with isVerified := true } else o) ∧
    (verifyOTP env db email otp).snd.users =
      db.users.map (fun v =>
        if v.id == u.id then { v with lastLogin := some db.now } else v) ∧
    (verifyOTP env db email otp).snd.now = db.now := by
  unfold verifyOTP
  simp [hne, hone, hfmt, hu, hfound, markOTPVerified, updateLastLogin,
    createSession, VerifyOTPResult.isOk]

/-- C1: for an active user with a valid email and no outstanding
challenges for it, issuing an OTP and redeeming the issued code succeeds
exactly once: issuance acknowledges, the first redeem succeeds and marks
the challenge verified — which removes it from the valid-challenge
lookup — and a second redeem with the same code fails with
`invalidOrExpiredOTP`. -/
theorem otp_issue_redeem_succeeds_exactly_once (env : Env) (db : DB)
    (email : String) (entropy : List Nat) (u : User)
    (hlen : effectiveOTPLength env = 6)
    (hvalid : isValidEmailJS email = true)
    (hu : getUserByEmail db (lowerJS email) = some u)
    (hfresh : ∀ o ∈ db.otps, o.email ≠ lowerJS email) :
    (sendOTP env db email entropy true).fst =
      .ok (lowerJS email) db.nextOtpId ∧
    (verifyOTP env (sendOTP env db email entropy true).snd email
        (generateSecureOTP entropy 6)).fst.isOk = true ∧
    (∃ o ∈ (verifyOTP env (sendOTP env db email entropy true).snd email
        (generateSecureOTP entropy 6)).snd.otps,
      o.email = lowerJS email ∧ o.otpCode = generateSecureOTP entropy 6 ∧
      o.isVerified = true) ∧
    getValidOTP (verifyOTP env (sendOTP env db email entropy true).snd email
        (generateSecureOTP entropy 6)).snd (lowerJS email)
        (generateSecureOTP entropy 6) "login" = none ∧
    (verifyOTP env
        (verifyOTP env (sendOTP env db email entropy true).snd email
          (generateSecureOTP entropy 6)).snd email
        (generateSecureOTP entropy 6)).fst = .err 400 .invalidOrExpiredOTP := by
  obtain ⟨hsnd, hfst⟩ := sendOTP_persist_shape env db email entropy true u hvalid hu
  have hne : email ≠ "" := isValidEmailJS_ne_empty hvalid
  have hone : generateSecureOTP entropy 6 ≠ "" := generateSecureOTP_ne_empty entropy
  have hfmt : isValidOTPFormat env (generateSecureOTP entropy 6) = true :=
    generateSecureOTP_format env entropy hlen
  have hmpos := effectiveOTPExpiryMinutes_pos env
  have hSotps : (sendOTP env db email entropy true).snd.otps =
      (cleanExpiredOTPs db).otps ++ [issuedChallenge env db email entropy] := by
    rw [hsnd]
  have hSusers : (sendOTP env db email entropy true).snd.users = db.users := by
    rw [hsnd]
  have hSnow : (sendOTP env db email entropy true).snd.now = db.now := by
    rw [hsnd]
  have hgu1 : getUserByEmail (sendOTP env db email entropy true).snd
      (lowerJS email) = some u := by
    unfold getUserByEmail
    rw [hSusers]
    exact hu
  have hfilter_old : (cleanExpiredOTPs db).otps.filter
      (fun o => otpMatches (lowerJS email) (generateSecureOTP entropy 6) "login" o &&
        otpValid (sendOTP env db email entropy true).snd.now o) = [] := by
    apply List.filter_eq_nil_iff.mpr
    intro o ho
    simp only [cleanExpiredOTPs] at ho
    have hneq := hfresh o (List.mem_filter.mp ho).1
    simp [otpMatches, hneq]
  have hP : (otpMatches (lowerJS email) (generateSecureOTP entropy 6) "login"
      (issuedChallenge env db email entropy) &&
      otpValid (sendOTP env db email entropy true).snd.now
        (issuedChallenge env db email entropy)) = true := by
    rw [hSnow]
    simp [otpMatches, otpValid, issuedChallenge]
    omega
  have hfind : getValidOTP (sendOTP env db email entropy true).snd
      (lowerJS email) (generateSecureOTP entropy 6) "login" =
      some (issuedChallenge env db email entropy) := by
    unfold getValidOTP
    rw [hSotps, List.filter_append, hfilter_old]
    simp [hP, mostRecent]
  obtain ⟨hok1, hTotps, hTusers, hTnow⟩ :=
    verifyOTP_success_shape env (sendOTP env db email entropy true).snd email
      (generateSecureOTP entropy 6) u _ hne hone hfmt hgu1 hfind
  have hTnil : ∀ o ∈ (verifyOTP env (sendOTP env db email entropy true).snd email
      (generateSecureOTP entropy 6)).snd.otps,
      ¬ (otpMatches (lowerJS email) (generateSecureOTP entropy 6) "login" o &&
        otpValid (verifyOTP env (sendOTP env db email entropy true).snd email
          (generateSecureOTP entropy 6)).snd.now o) = true := by
    intro o ho
    rw [hTotps, hSotps] at ho
    rcases List.mem_map.mp ho with ⟨o0, ho0, rfl⟩
    rcases List.mem_append.mp ho0 with h1 | h2
    · have hmem : o0 ∈ db.otps := by
        simp only [cleanExpiredOTPs] at h1
        exact (List.mem_filter.mp h1).1
      have hneq := hfresh o0 hmem
      by_cases hid : (o0.id == (issuedChallenge env db email entropy).id) = true <;>
        simp [hid, otpMatches, hneq]
    · have ho0eq : o0 = issuedChallenge env db email entropy := by
        simpa using h2
      subst ho0eq
      simp [otpMatches, otpValid]
  have hfind2 : getValidOTP (verifyOTP env
      (sendOTP env db email entropy true).snd email
      (generateSecureOTP entropy 6)).snd (lowerJS email)
      (generateSecureOTP entropy 6) "login" = none := by
    unfold getValidOTP
    rw [List.filter_eq_nil_iff.mpr hTnil]
    rfl
  refine ⟨by rw [hfst]; simp, hok1, ?_, hfind2, ?_⟩
  · rw [hTotps, hSotps]
    refine ⟨{ issuedChallenge env db email entropy with isVerified := true },
      ?_, rfl, rfl, rfl⟩
    apply List.mem_map.mpr
    refine ⟨issuedChallenge env db email entropy, by simp, by simp⟩
  · simp only [hSnow] at hTusers
    have hgu2 : getUserByEmail (verifyOTP env
        (sendOTP env db email entropy true).snd email
        (generateSecureOTP entropy 6)).snd (lowerJS email) =
        some (if u.id == u.id then { u with lastLogin := some db.now } else u) := by
      rw [getUserByEmail_map (sendOTP env db email entropy true).snd _
        (fun v => if v.id == u.id then { v with lastLogin := some db.now } else v)
        hTusers ?_ (lowerJS email)]
      · rw [hgu1]
        rfl
      · intro v
        by_cases hv : (v.id == u.id) = true <;> simp [hv]
    have hrun2 := verifyOTP_wrong_code_run env
      (verifyOTP env (sendOTP env db email entropy true).snd email
        (generateSecureOTP entropy 6)).snd email (generateSecureOTP entropy 6)
      _ hne hone hfmt hgu2 hfind2
    rw [hrun2]

theorem otp_issue_redeem_succeeds_exactly_once_witness :
    (sendOTP envDefault dbAlice "a@x.com" [1, 2, 3, 4, 5, 6] true).fst =
      .ok (lowerJS "a@x.com") dbAlice.nextOtpId ∧
    (verifyOTP envDefault (sendOTP envDefault dbAlice "a@x.com"
        [1, 2, 3, 4, 5, 6] true).snd "a@x.com"
        (generateSecureOTP [1, 2, 3, 4, 5, 6] 6)).fst.isOk = true ∧
    (∃ o ∈ (verifyOTP envDefault (sendOTP envDefault dbAlice "a@x.com"
        [1, 2, 3, 4, 5, 6] true).snd "a@x.com"
        (generateSecureOTP [1, 2, 3, 4, 5, 6] 6)).snd.otps,
      o.email = lowerJS "a@x.com" ∧
      o.otpCode = generateSecureOTP [1, 2, 3, 4, 5, 6] 6 ∧
      o.isVerified = true) ∧
    getValidOTP (verifyOTP envDefault (sendOTP envDefault dbAlice "a@x.com"
        [1, 2, 3, 4, 5, 6] true).snd "a@x.com"
        (generateSecureOTP [1, 2, 3, 4, 5, 6] 6)).snd (lowerJS "a@x.com")
        (generateSecureOTP [1, 2, 3, 4, 5, 6] 6) "login" = none ∧
    (verifyOTP envDefault
        (verifyOTP envDefault (sendOTP envDefault dbAlice "a@x.com"
          [1, 2, 3, 4, 5, 6] true).snd "a@x.com"
          (generateSecureOTP [1, 2, 3, 4, 5, 6] 6)).snd "a@x.com"
        (generateSecureOTP [1, 2, 3, 4, 5, 6] 6)).fst =
      .err 400 .invalidOrExpiredOTP :=
  otp_issue_redeem_succeeds_exactly_once envDefault dbAlice "a@x.com"
    [1, 2, 3, 4, 5, 6] aliceUser rfl (by decide) (by decide) (by decide)

end AuthCore
